import Mathlib

/-!
Verification development for the Text2Cypher agentic workflow
(`flows/langgraph_flow.py` and the node classes under `agents/`).

The Python code is shallowly embedded: the shared LangGraph `State`
TypedDict becomes a Lean structure, each node's `run` function becomes a
Lean function on that structure, and the compiled graph's conditional
edges become a step function on a configuration (current node + state).
External, non-deterministic services (the Gemini classifier/rewriter, the
Google search backend, the Neo4j driver) are ports per spec section 6;
they are modelled as oracle parameters, and the deterministic no-LLM
fallback logic that the source runs when those services are unavailable
is embedded verbatim.

Python-specific conventions used throughout the embedding:
* optional/possibly-absent dict keys become `Option` fields;
* Python truthiness of a string (`if s:`) is `s ≠ ""`, of an optional
  string it is "present and non-empty";
* `a or b` on strings keeps `a` when truthy, else `b`;
* Python `str.lower`/`str.upper` are modelled over ASCII plus the accented
  Spanish letters that appear in the source's keyword lists.
-/

set_option autoImplicit false

/-! ## Basic string helpers (Python semantics) -/

/-- Case folding for the alphabet this code base uses: ASCII plus the
accented Spanish letters appearing in the source keyword lists
(models Python `str.lower` on these characters). -/
def charLowerX (c : Char) : Char :=
  if c = 'Á' then 'á' else if c = 'É' then 'é' else if c = 'Í' then 'í'
  else if c = 'Ó' then 'ó' else if c = 'Ú' then 'ú' else if c = 'Ñ' then 'ñ'
  else if c = 'Ü' then 'ü' else c.toLower

/-- Models Python `str.upper` on the same alphabet. -/
def charUpperX (c : Char) : Char :=
  if c = 'á' then 'Á' else if c = 'é' then 'É' else if c = 'í' then 'Í'
  else if c = 'ó' then 'Ó' else if c = 'ú' then 'Ú' else if c = 'ñ' then 'Ñ'
  else if c = 'ü' then 'Ü' else c.toUpper

def lowerX (s : String) : String := String.mk (s.data.map charLowerX)

def upperX (s : String) : String := String.mk (s.data.map charUpperX)

/-- Contiguous-substring scan at the character level. -/
def isSubstrGo (nd : List Char) (hay : List Char) : Bool :=
  match hay with
  | [] => nd.isEmpty
  | _ :: cs => nd.isPrefixOf hay || isSubstrGo nd cs

/-- Python `needle in hay` substring test. -/
def isSubstr (needle hay : String) : Bool :=
  isSubstrGo needle.data hay.data

/-- Python truthiness of an optional string (absent, `None` and `""` are falsy). -/
def strTruthy : Option String → Bool
  | none => false
  | some s => s ≠ ""

/-- Python `a or b` where `a` is an optional string and `b` a string. -/
def pyOrD (a : Option String) (b : String) : String :=
  match a with
  | some s => if s = "" then b else s
  | none => b

/-- Python `a or b` on two optional strings (used for `inputs.get(..) or inputs.get(..)`). -/
def pyOrOpt (a b : Option String) : Option String :=
  if strTruthy a then a else b

/-- Python `str.strip()` (whitespace from both ends), implemented at
the character level. -/
def pyStrip (s : String) : String :=
  String.mk (((s.data.dropWhile (fun c => c.isWhitespace)).reverse.dropWhile
    (fun c => c.isWhitespace)).reverse)

/-- Python `s.endswith(t)`. -/
def strEndsWith (s t : String) : Bool :=
  t.data.reverse.isPrefixOf s.data.reverse

/-- Python slicing `s[:n]` (by code points). -/
def strTake (s : String) (n : Nat) : String :=
  String.mk (s.data.take n)

/-- Python `s.split(",")` (keeps empty pieces). -/
def splitCommaGo (acc : List Char) (l : List Char) : List (List Char) :=
  match l with
  | [] => [acc.reverse]
  | c :: cs => if c = ',' then acc.reverse :: splitCommaGo [] cs else splitCommaGo (c :: acc) cs

def pySplitComma (s : String) : List String :=
  (splitCommaGo [] s.data).map String.mk

/-- Python `sep.join(xs)` for an arbitrary separator. -/
def icGo (sep : List Char) : List (List Char) → List Char
  | [] => []
  | [w] => w
  | w :: ws => w ++ sep ++ icGo sep ws

def strJoin (sep : String) (xs : List String) : String :=
  String.mk (icGo sep.data (xs.map String.data))

theorem dropWhile_len_le (p : Char → Bool) (cs : List Char) :
    (cs.dropWhile p).length ≤ cs.length := by
  induction cs with
  | nil => simp [List.dropWhile]
  | cons d ds ih => by_cases h : p d <;> first
      | (simp [List.dropWhile, h]; omega)
      | simp [List.dropWhile, h]

theorem dropWhile_lt_cons (p : Char → Bool) (c : Char) (cs : List Char) :
    (cs.dropWhile p).length < (c :: cs).length := by
  have := dropWhile_len_le p cs
  simp only [List.length_cons]; omega

theorem cons_len_lt (c : Char) (cs : List Char) : cs.length < (c :: cs).length := by
  simp only [List.length_cons]; omega

/-- Word splitter used by Python `str.split()` with no argument:
split on whitespace runs, dropping empty pieces. `acc` holds the
(reversed) word being accumulated. -/
def splitGo (acc : List Char) (l : List Char) : List (List Char) :=
  match l with
  | [] => if acc = [] then [] else [acc.reverse]
  | c :: cs =>
    if c.isWhitespace then
      (if acc = [] then splitGo [] cs else acc.reverse :: splitGo [] cs)
    else splitGo (c :: acc) cs

/-- Python `s.split()`. -/
def pySplit (s : String) : List String :=
  (splitGo [] s.data).map String.mk

/-- Number of whitespace-separated words of a string. -/
def wordCount (s : String) : Nat := (pySplit s).length

/-- Python `' '.join(...)` at the character-list level. -/
def joinChars : List (List Char) → List Char
  | [] => []
  | [w] => w
  | w :: ws => w ++ ' ' :: joinChars ws

/-- Python `' '.join(...)` on strings. -/
def joinSp (ws : List String) : String :=
  String.mk (joinChars (ws.map String.data))

/-- Sentence splitter modelling Python `re.split(r'(?<=[.!?])\s+', text)`:
a separator is a maximal whitespace run whose immediately preceding
character is `.`, `!` or `?`. The recursion is driven by a fuel
argument (one unit per character) so that the definition is
structurally recursive; `split_sentences` supplies enough fuel that
the fuel-exhausted branch is never taken. -/
def splitSentGo (fuel : Nat) (prevPunct : Bool) (acc : List Char) (l : List Char) :
    List (List Char) :=
  match fuel, l with
  | 0, l => [acc.reverse ++ l]
  | _ + 1, [] => [acc.reverse]
  | f + 1, c :: cs =>
    if prevPunct ∧ c.isWhitespace then
      acc.reverse :: splitSentGo f false [] (cs.dropWhile (fun x => x.isWhitespace))
    else
      splitSentGo f (c = '.' ∨ c = '!' ∨ c = '?') (c :: acc) cs

/-- Python `re.split(r'(?<=[.!?])\s+', text)` on strings. -/
def split_sentences (text : String) : List String :=
  (splitSentGo (text.data.length + 1) false [] text.data).map String.mk

/-- Number of sentences of a string under the source's own sentence
splitter (applied, as the source does, to the stripped text). -/
def sentenceCount (s : String) : Nat := (split_sentences (pyStrip s)).length

/-! ## Data model: the LangGraph `State` (agents/contracts.py) -/

/-- The four route labels produced by `OrchestratorNode.decide_route`
(the source uses the strings "refiner", "text_to_cypher", "web_search",
"answerer"; the conditional-edge map in `create_graph` sends each label
to the node of the same name). -/
inductive Route
  | refiner
  | text_to_cypher
  | web_search
  | answerer
deriving DecidableEq, Repr

/-- One search hit as built by `_mock_search` / `_search_with_google`:
a dict with keys `title`, `url`, `content` (plus a float `score`, which
no embedded code path ever reads and which is omitted here because
floating point is out of scope). -/
structure SearchItem where
  title : String
  url : String
  content : String
deriving DecidableEq, Repr

/-- The dict stored in `state["cypher_result"]` by `Text2CypherNode.run`
(keys `cypher`, `results`, `error`, `note`; absent keys are `none`).
Rows returned by Neo4j are modelled as strings. -/
structure CypherResult where
  cypher : Option String := none
  results : Option (List String) := none
  error : Option String := none
  note : Option String := none
deriving DecidableEq, Repr

/-- The dict returned by `WebSearchNode.run` and stored in
`state["web_result"]`. The key `_filtered_by_domain`, which
`AnswererNode._format_web_response` reads, is included as an optional
field (`none` = key absent). -/
structure WebResult where
  question : Option String := none
  results : List SearchItem := []
  result_count : Nat := 0
  success : Bool := false
  error : Option String := none
  user_friendly : Option String := none
  filteredByDomain : Option Bool := none
deriving DecidableEq, Repr

/-- The dict written into `route_annotations["domain_check"]` by the
orchestrator's allowlist override. -/
structure DomainCheck where
  allowed_topics : List String
  matched : Bool
  note : String
deriving DecidableEq, Repr

/-- The shared LangGraph state (agents/contracts.py `State`), plus the
`mock` flag that `run_flow_async` adds to the initial state and the
`route_annotations["domain_check"]` entry the orchestrator may add. -/
structure State where
  query : String
  refined_query : Option String := none
  route_decision : Option Route := none
  cypher_result : Option CypherResult := none
  web_result : Option WebResult := none
  final_answer : Option String := none
  error : Option String := none
  iteration_count : Nat := 0
  mock : Bool := true
  route_annotations_domain_check : Option DomainCheck := none
deriving DecidableEq, Repr

/-- Read-only process configuration surface consumed by the nodes
(environment variables and availability of optional imports).
`""` models an unset environment variable. -/
structure Cfg where
  allowedTopics : String := ""
  webDomains : String := ""
  llmAvailable : Bool := false
  googleKey : Option String := none
  googleCx : Option String := none
  requestsAvailable : Bool := true
  neo4jAvailable : Bool := false
deriving Repr

/-- External ports (spec section 6): the classifier/rewriter LLM, the
Cypher generation service, the Neo4j execution layer and the Google
search backend. `none` models an unavailable port or a port call whose
response carries no usable content. -/
structure Oracle where
  classify : String → Option String := fun _ => none
  rewrite : String → Option String := fun _ => none
  translate : String → String := fun _ => "NO_CYPHER"
  runCypher : String → Except String (List String) := fun _ => .error "no driver"
  googleSearch : String → Nat → List SearchItem := fun _ _ => []

/-! ## OrchestratorNode (agents/orchestrator_agent.py) -/

/-- Keyword list of `OrchestratorNode._seems_db_query`. -/
def dbKeywordsSeems : List String :=
  ["producto", "productos", "cliente", "clientes", "compra", "compras",
   "venta", "ventas", "stock", "inventario", "pedido", "pedidos",
   "comunidad", "comunidades", "precio", "precios"]

/-- `OrchestratorNode._seems_db_query`. -/
def seems_db_query (query : String) : Bool :=
  let query_lower := lowerX query
  dbKeywordsSeems.any (fun k => isSubstr k query_lower)

/-- `OrchestratorNode._is_vague_query`. -/
def is_vague_query (query : String) : Bool :=
  let n := (pySplit query).length
  if n ≤ 3 ∧ seems_db_query query then false
  else (n ≤ 3) ∨ (strEndsWith (pyStrip query) "?" ∧ n ≤ 4)

/-- Keyword list of `OrchestratorNode._heuristic_route` (a superset of
the `_seems_db_query` list). -/
def dbKeywordsHeur : List String :=
  dbKeywordsSeems ++
  ["top", "mejor", "mayor", "menor", "total", "cantidad", "cuanto", "cuantos"]

/-- Conversational markers of `OrchestratorNode._heuristic_route`. -/
def conversationalWords : List String :=
  ["hola", "hi", "hello", "gracias", "thanks", "adiós", "bye", "ayuda", "help"]

/-- `OrchestratorNode._heuristic_route`. -/
def heuristic_route (query : String) : Route :=
  let query_lower := lowerX query
  let words := pySplit (pyStrip query)
  if words.length ≤ 2 ∧ conversationalWords.any (fun w => isSubstr w query_lower) then
    .answerer
  else if dbKeywordsHeur.any (fun k => isSubstr k query_lower) then
    (if is_vague_query query then .refiner else .text_to_cypher)
  else if is_vague_query query then .refiner
  else .web_search

/-- `OrchestratorNode.decide_route`. The LLM branch is driven by the
classifier port: `none` models an unavailable LLM client or a raised
exception (both fall back to heuristics in the source); `some c` models
a response whose content is `c`, which the source uppercases and maps
to a label by substring tests, falling back to heuristics when none of
the four labels occurs. -/
def decide_route (cfg : Cfg) (o : Oracle) (query : String)
    (refined_query : Option String) (iteration_count : Nat) : Route :=
  if iteration_count ≥ 2 then
    (if seems_db_query (pyOrD refined_query query) then .text_to_cypher else .web_search)
  else
    let query_to_analyze := pyOrD refined_query query
    if ¬ cfg.llmAvailable then heuristic_route query_to_analyze
    else
      match o.classify query_to_analyze with
      | none => heuristic_route query_to_analyze
      | some content =>
        let decision := upperX (pyStrip content)
        if isSubstr "TEXT_TO_CYPHER" decision ∨ isSubstr "CYPHER" decision then .text_to_cypher
        else if isSubstr "WEB_SEARCH" decision ∨ isSubstr "WEB" decision then .web_search
        else if isSubstr "REFINER" decision ∨ isSubstr "REFINE" decision then .refiner
        else if isSubstr "ANSWERER" decision ∨ isSubstr "ANSWER" decision then .answerer
        else heuristic_route query_to_analyze

/-- Token parsing of the allowlist override:
`[t.strip().lower() for t in allowed_topics_env.split(",") if t.strip()]`
applied to the stripped `ALLOWED_TOPICS` value. -/
def parse_topics (env : String) : List String :=
  (pySplitComma (pyStrip env)).filterMap
    (fun t => let ts := pyStrip t; if ts = "" then none else some (lowerX ts))

/-- `OrchestratorNode.run`: make the routing decision, apply the
allowed-topics gate, and record the decision in the state. -/
def orchestratorRun (cfg : Cfg) (o : Oracle) (s : State) : State :=
  let route := decide_route cfg o s.query s.refined_query s.iteration_count
  let allowed_topics_env := pyStrip cfg.allowedTopics
  if route = .text_to_cypher ∧ allowed_topics_env ≠ "" then
    let allowed_tokens := parse_topics cfg.allowedTopics
    let q_to_check := lowerX (pyOrD s.refined_query s.query)
    if ¬ allowed_tokens.any (fun tok => isSubstr tok q_to_check) then
      { s with route_decision := some .web_search,
               route_annotations_domain_check := some
                 { allowed_topics := allowed_tokens,
                   matched := false,
                   note := "Rerouted from text_to_cypher to web_search because query did not match allowed topics." } }
    else { s with route_decision := some route }
  else { s with route_decision := some route }

/-- `route_decision` (the conditional-edge selector of the graph):
`state.get("route_decision", "text_to_cypher")`. -/
def routeSelector (s : State) : Route :=
  s.route_decision.getD .text_to_cypher

/-! ## RefinerNode (agents/refiner_agent.py) -/

/-- Normalization of the rewrite port's response content: the source
checks `if not content`, so an absent content and an empty string are
both failures. -/
def contentOf (r : Option String) : Option String :=
  match r with
  | some "" => none
  | x => x

/-- `RefinerNode.run`. `state.get("mock", ...)` selects the
deterministic mock rewrite; otherwise the rewrite port supplies the
response content. -/
def refinerRun (o : Oracle) (s : State) : State :=
  if s.query = "" then
    { s with error := some "missing 'query' in state" }
  else if s.mock then
    { s with refined_query := some ("(REFINED) " ++ pyStrip s.query),
             iteration_count := s.iteration_count + 1 }
  else
    match contentOf (o.rewrite s.query) with
    | none => { s with error := some "LLM returned empty content" }
    | some content =>
      { s with refined_query := some (pyStrip content),
               iteration_count := s.iteration_count + 1 }

/-! ## Text2CypherNode (agents/text2cypher_agent.py)

`generate_cypher` is the structured-query translation port (spec
sections 1 and 6 treat the graph-query generation service as an
external collaborator), modelled by `Oracle.translate`; `run_cypher`
is the execution layer, modelled by `Oracle.runCypher` and gated on
driver availability. -/

/-- `clean_cypher`: remove code fences. `re.sub(r"```[a-zA-Z]*", "", raw)`
removes every occurrence of three backticks plus any directly following
ASCII letters (the subsequent `replace("```", "")` in the source is then
a no-op), and the result is stripped. -/
def cleanCypherGo (fuel : Nat) (l : List Char) : List Char :=
  match fuel, l with
  | 0, l => l
  | _ + 1, [] => []
  | f + 1, '`' :: '`' :: '`' :: rest =>
    cleanCypherGo f (rest.dropWhile (fun c => c.isAlpha ∧ c.toNat < 128))
  | f + 1, c :: rest => c :: cleanCypherGo f rest

def clean_cypher (raw : String) : String :=
  pyStrip (String.mk (cleanCypherGo raw.data.length raw.data))

/-- `Text2CypherNode.run`. -/
def text2cypherRun (cfg : Cfg) (o : Oracle) (s : State) : State :=
  let query := pyOrD s.refined_query s.query
  if query = "" then
    { s with error := some "missing 'query' in state" }
  else
    let cypher := clean_cypher (o.translate query)
    if cypher = "NO_CYPHER" then
      let msg := if ¬ cfg.llmAvailable then
          "No se pudo generar un Cypher válido: LLM no configurado (ver LLM_API_KEY o instalación del cliente)."
        else
          "No se pudo generar un Cypher válido para esta pregunta."
      let cr : CypherResult := { error := some msg }
      { s with cypher_result := some cr }
    else if ¬ cfg.neo4jAvailable then
      let note := if ¬ cfg.llmAvailable then
          "Neo4j driver not available; cypher returned without execution. LLM not configured; minimal rule-based fallback may have been used."
        else
          "Neo4j driver not available; cypher returned without execution."
      let cr : CypherResult := { cypher := some cypher, results := some [], note := some note }
      { s with cypher_result := some cr }
    else
      match o.runCypher cypher with
      | .ok rows =>
        let cr : CypherResult := { cypher := some cypher, results := some rows }
        { s with cypher_result := some cr }
      | .error e =>
        let cr : CypherResult := { cypher := some cypher, error := some e }
        { s with cypher_result := some cr }

/-! ## WebSearchNode (agents/web_search_agent.py) -/

/-- `_format_user_friendly`: concise Spanish digest of search results. -/
def format_user_friendly (question : String) (results : List SearchItem) : String :=
  if results = [] then
    "No encontré información relevante en la web sobre '" ++ question ++
      "'. Puedo intentar buscar nuevamente o ayudarte con otra consulta."
  else
    let top := results.take 3
    let header := "He encontrado " ++ toString results.length ++
      " resultados en la web para: '" ++ question ++
      "'. Aquí un resumen de los más relevantes:"
    let numbered := top.enum.map (fun p =>
      let i := p.1 + 1
      let r := p.2
      let content := pyStrip r.content
      let snippet := if content.length ≤ 200 then content else strTake content 197 ++ "..."
      if r.url ≠ "" then
        toString i ++ ". " ++ r.title ++ " — " ++ snippet ++ " (ver: " ++ r.url ++ ")"
      else
        toString i ++ ". " ++ r.title ++ " — " ++ snippet)
    let lines := header :: numbered ++
      ["Si querés, puedo intentar obtener más detalles de alguna de estas fuentes o convertir esto en una respuesta más formal para un cliente."]
    strJoin "\n" lines

/-- The `TypeError` message raised by
`print("api key:" + os.getenv("GOOGLE_API_KEY"))` when the variable is
unset (`os.getenv` returns `None`). -/
def typeErrorMsg : String := "can only concatenate str (not \"NoneType\") to str"

/-- `WebSearchNode.run`. The inputs dict carries optional `query` and
`question` keys. When `GOOGLE_API_KEY` is unset, the debug print inside
the `try` block raises a `TypeError` which the `except` branch converts
into a failure record. Note that no branch ever writes a
`_filtered_by_domain` key nor an original/filtered result-count pair. -/
def webSearchRun (cfg : Cfg) (o : Oracle) (inpQuery inpQuestion : Option String)
    (max_results : Nat := 5) : WebResult :=
  let question := pyOrOpt inpQuery inpQuestion
  if ¬ strTruthy question then
    { question := none, results := [], result_count := 0,
      success := false, error := some "missing 'query' in inputs" }
  else
    let q := question.getD ""
    match cfg.googleKey with
    | none =>
      { question := some q, results := [], result_count := 0,
        success := false, error := some typeErrorMsg,
        user_friendly := some ("Ocurrió un error al buscar en la web: " ++ typeErrorMsg) }
    | some key =>
      let results :=
        if key ≠ "" ∧ strTruthy cfg.googleCx ∧ cfg.requestsAvailable then
          o.googleSearch q max_results
        else []
      { question := some q, results := results, result_count := results.length,
        success := true, error := none,
        user_friendly := some (format_user_friendly q results) }

/-- Modelled from the spec: the LangGraph adapter `web_search_node` is
imported by `flows/langgraph_flow.py` and `agents/__init__.py` but is
not defined anywhere under the repository sources. Per spec section 4.4
the External-Search node issues the active query text to the search
port and records the outcome in the context's search-result field, and
it is terminal for its branch (the graph wires it straight to the
Answer node). It is modelled as storing `WebSearchNode.run`'s output
in `state["web_result"]`. -/
def webSearchNodeRun (cfg : Cfg) (o : Oracle) (s : State) : State :=
  { s with web_result := some (webSearchRun cfg o (some (pyOrD s.refined_query s.query)) none) }

/-! ## AnswererNode (agents/answerer_agent.py)

The Answerer is embedded in its deterministic no-LLM configuration
(`_get_llm()` returns `None` when the Gemini client or the API key is
absent); the LLM-formatted responses are external-port output, but the
branch structure of `run` does not depend on the LLM at all. -/

/-- Case-insensitive literal match: consumes `lit` (given lowercase)
from the head of `l`, returning the remainder. Models the case folding
of Python `re.I` over this code base's alphabet. -/
def ciPrefix (lit : List Char) (l : List Char) : Option (List Char) :=
  match lit, l with
  | [], rest => some rest
  | _ :: _, [] => none
  | p :: ps, c :: cs => if charLowerX c = p then ciPrefix ps cs else none

/-- `urlparse(url).netloc` for the absolute URLs the search port
produces: the text after the first `//` up to the next `/`, `?` or `#`. -/
def netlocGo (l : List Char) : List Char :=
  match l with
  | '/' :: '/' :: rest => rest.takeWhile (fun c => ¬ (c = '/' ∨ c = '?' ∨ c = '#'))
  | [] => []
  | _ :: rest => netlocGo rest

def urlNetloc (url : String) : String := String.mk (netlocGo url.data)

/-- `AnswererNode._shorten_text`: keep at most `max_sentences`
sentences, then truncate to `max_words` words (appending `...`). -/
def shorten_text (text : String) (max_sentences max_words : Nat) : String :=
  if text = "" then ""
  else
    let sentences := split_sentences (pyStrip text)
    let brief := pyStrip (joinSp (sentences.take max_sentences))
    let words := pySplit brief
    if words.length > max_words then joinSp (words.take max_words) ++ "..." else brief

/-- The backtracking tail of `re.search(r"El campeón fue\s+([^,\.\n]+)", ...)`
after the literal matched: `\s+` takes `k` whitespace characters
(greedy, so the largest `k` first) and the capture is the following
maximal nonempty run of characters other than `,`, `.` and newline. -/
def champTryK (rest : List Char) (k : Nat) : Option (List Char) :=
  match k with
  | 0 => none
  | k + 1 =>
    let cap := (rest.drop (k + 1)).takeWhile (fun c => ¬ (c = ',' ∨ c = '.' ∨ c = '\n'))
    if cap ≠ [] then some cap else champTryK rest k

/-- Leftmost match of `re.search(r"El campeón fue\s+([^,\.\n]+)", text, re.I)`,
returning the captured group. -/
def championGo (l : List Char) : Option (List Char) :=
  match l with
  | [] => none
  | _ :: cs =>
    match ciPrefix "el campeón fue".data l with
    | some rest =>
      match champTryK rest (rest.takeWhile (fun c => c.isWhitespace)).length with
      | some cap => some cap
      | none => championGo cs
    | none => championGo cs

/-- The character class `[A-ZÁÉÍÓÚÑ]` under `re.I`. -/
def inNameClass (c : Char) : Bool :=
  let lc := charLowerX c
  ('a' ≤ lc ∧ lc ≤ 'z') ∨ lc = 'á' ∨ lc = 'é' ∨ lc = 'í' ∨ lc = 'ó' ∨ lc = 'ú' ∨ lc = 'ñ'

/-- Python `\w` over this code base's alphabet (ASCII word characters
plus the accented Spanish letters). -/
def isWordCharX (c : Char) : Bool :=
  c.isAlphanum ∨ c = '_' ∨
    (charLowerX c = 'á' ∨ charLowerX c = 'é' ∨ charLowerX c = 'í' ∨
     charLowerX c = 'ó' ∨ charLowerX c = 'ú' ∨ charLowerX c = 'ñ' ∨ charLowerX c = 'ü')

/-- Whether `\s+(ganó|venció|derrotó)` (case-insensitive) matches a
prefix of `l`. The three verbs start with a non-whitespace character,
so the greedy-with-backtracking `\s+` can only stop at the end of the
maximal whitespace run. -/
def verbHere (l : List Char) : Bool :=
  let ws := l.takeWhile (fun c => c.isWhitespace)
  let rest := l.dropWhile (fun c => c.isWhitespace)
  ws ≠ [] ∧ ((ciPrefix "ganó".data rest).isSome ∨ (ciPrefix "venció".data rest).isSome ∨
    (ciPrefix "derrotó".data rest).isSome)

/-- The lazy body `[\w\s]+?` of `re.search(r"([A-ZÁÉÍÓÚÑ][\w\s]+?)\s+(ganó|venció|derrotó)", ...)`:
extend the body one character at a time (shortest first) until the
verb tail matches. Returns group 1. -/
def verbBodyGo (c0 : Char) (acc : List Char) (l : List Char) : Option (List Char) :=
  match l with
  | [] => none
  | c :: cs =>
    if isWordCharX c ∨ c.isWhitespace then
      if verbHere cs then some (c0 :: (c :: acc).reverse)
      else verbBodyGo c0 (c :: acc) cs
    else none

/-- Leftmost match of the `(ganó|venció|derrotó)` pattern, returning
the captured subject group. -/
def verbGo (l : List Char) : Option (List Char) :=
  match l with
  | [] => none
  | c :: cs =>
    if inNameClass c then
      match verbBodyGo c [] cs with
      | some g => some g
      | none => verbGo cs
    else verbGo cs

/-- Leftmost match of `re.search(r"20\d{2}", query)`. -/
def yearGo (l : List Char) : Option String :=
  match l with
  | [] => none
  | c :: cs =>
    match c, cs with
    | '2', '0' :: d1 :: d2 :: _ =>
      if d1.isDigit ∧ d2.isDigit then some (String.mk ['2', '0', d1, d2]) else yearGo cs
    | _, _ => yearGo cs

/-- The `Fuente` source citation: `results and results[0].get("url")`. -/
def sourceOf (results : List SearchItem) : Option String :=
  match results with
  | [] => none
  | r :: _ => if r.url ≠ "" then some (urlNetloc r.url) else none

/-- `AnswererNode._synthesize_summary` (the deterministic no-LLM
summarizer). -/
def synthesize_summary (results : List SearchItem) (query : String) : String :=
  if results = [] then
    "No se encontró información suficiente en las fuentes para generar un resumen conciso."
  else
    let candidates := results.filterMap (fun r =>
      let content := pyStrip r.content
      let title := pyStrip r.title
      if content ≠ "" then some content
      else if title ≠ "" then some title
      else none)
    let text := candidates.headD ""
    let year := (yearGo query.data).getD "2022"
    match championGo text.data with
    | some cap =>
      let country := pyStrip (String.mk cap)
      (match sourceOf results with
       | some src => country ++ " ganó la Copa Mundial de Fútbol " ++ year ++ ". Fuente: " ++ src ++ "."
       | none => country ++ " ganó la Copa Mundial de Fútbol " ++ year ++ ".")
    | none =>
      match verbGo text.data with
      | some g =>
        let country := pyStrip (String.mk g)
        (match sourceOf results with
         | some src => country ++ " ganó la Copa Mundial de Fútbol " ++ year ++ ". Fuente: " ++ src ++ "."
         | none => country ++ " ganó la Copa Mundial de Fútbol " ++ year ++ ".")
      | none =>
        let sentences := split_sentences (pyStrip text)
        let brief := pyStrip (joinSp (sentences.take 2))
        if brief = "" then
          "No se encontró información suficiente en las fuentes para generar un resumen conciso."
        else
          let brief_short := shorten_text brief 2 50
          match sourceOf results with
          | some src => brief_short ++ " Fuente: " ++ src ++ "."
          | none => brief_short

/-- Python `str(...)` of a row list (rows modelled as strings). -/
def pyReprList (rows : List String) : String :=
  "[" ++ strJoin ", " (rows.map (fun r => "'" ++ r ++ "'")) ++ "]"

/-- `AnswererNode._format_cypher_response` in the no-LLM configuration. -/
def format_cypher_response (cypher_result : CypherResult) : String :=
  if strTruthy cypher_result.error then
    "No pude ejecutar la consulta en la base de datos: " ++ cypher_result.error.getD ""
  else
    let results := cypher_result.results.getD []
    if results = [] then
      "No se encontraron resultados en la base de datos para tu consulta."
    else
      "Encontré " ++ toString results.length ++ " resultado(s) en la base de datos. Resultados: " ++
        strTake (pyReprList results) 500

/-- The topics list string `", ".join(t.strip() for t in env.split(",") if t.strip())`
used by the conversational fallbacks (not lowercased). -/
def topicsList (env : String) : String :=
  strJoin ", " ((pySplitComma env).filterMap
    (fun t => let ts := pyStrip t; if ts = "" then none else some ts))

/-- `re.match(r"^\s*(hola|buenos d[ií]as|buenas tardes|buenas noches|hi|hello)\b", query, re.I)`:
after leading whitespace, one of the greeting alternatives followed by
a word boundary. -/
def matchGreeting (query : String) : Bool :=
  let l := query.data.dropWhile (fun c => c.isWhitespace)
  let alts := ["hola", "buenos dias", "buenos días", "buenas tardes", "buenas noches", "hi", "hello"]
  alts.any (fun a =>
    match ciPrefix a.data l with
    | some rest =>
      match rest with
      | [] => true
      | c :: _ => ¬ isWordCharX c
    | none => false)

/-- `AnswererNode._format_conversational_response` in the no-LLM
configuration: the greeting branch and the no-LLM fallback produce the
same `ALLOWED_TOPICS`-driven text. -/
def format_conversational_response (cfg : Cfg) (query : String) : String :=
  if matchGreeting query then
    if cfg.allowedTopics ≠ "" then
      "Hola, soy tu asistente. Puedo ayudar con consultas relacionadas con los siguientes temas: " ++
        topicsList cfg.allowedTopics ++ ". ¿En qué te puedo ayudar?"
    else
      "Hola, soy tu asistente. Puedo ayudarte con consultas sobre productos, inventario y compras de e-commerce. ¿En qué te puedo ayudar?"
  else
    if cfg.allowedTopics ≠ "" then
      "Hola, soy tu asistente. Puedo ayudar con consultas relacionadas con los siguientes temas: " ++
        topicsList cfg.allowedTopics ++ ". ¿En qué te puedo ayudar?"
    else
      "Hola, soy tu asistente. Puedo ayudarte con consultas sobre productos, inventario y compras de e-commerce. ¿En qué te puedo ayudar?"

/-- The guard of the domain-filter refusal branch in
`_format_web_response`:
`if web_domains_env and web_result.get("_filtered_by_domain") is False`. -/
def filtered_refusal (cfg : Cfg) (wr : WebResult) : Bool :=
  cfg.webDomains ≠ "" ∧ wr.filteredByDomain = some false

/-- `AnswererNode._format_web_response` in the no-LLM configuration. -/
def format_web_response (cfg : Cfg) (query : String) (wr : WebResult) : String :=
  if ¬ wr.success then
    "No pude realizar la búsqueda web: " ++ wr.error.getD "Error desconocido"
  else if wr.results = [] then
    "No encontré información relevante en la web sobre '" ++ query ++ "'."
  else if filtered_refusal cfg wr then
    "Lo siento, esto no forma parte de mi dominio y no puedo responder."
  else if cfg.allowedTopics ≠ "" ∧
      ¬ (parse_topics cfg.allowedTopics).any (fun tok => isSubstr tok (lowerX query)) then
    "Lo siento, esto no forma parte de mi dominio y no puedo responder."
  else
    synthesize_summary wr.results query

/-- `AnswererNode.run`: the fixed-priority answer synthesis. -/
def answererRun (cfg : Cfg) (s : State) : State :=
  if strTruthy s.error then
    { s with final_answer := some ("Lo siento, ocurrió un error: " ++ s.error.getD "") }
  else
    match s.cypher_result with
    | some cr => { s with final_answer := some (format_cypher_response cr) }
    | none =>
      match s.web_result with
      | some wr => { s with final_answer := some (format_web_response cfg s.query wr) }
      | none => { s with final_answer := some (format_conversational_response cfg s.query) }

/-! ## The compiled graph (flows/langgraph_flow.py `create_graph`)

Nodes and edges:
`START -> orchestrator`; conditional edges from `orchestrator` via
`route_decision`; `refiner -> orchestrator` (unconditional);
`text_to_cypher -> answerer`; `web_search -> answerer`;
`answerer -> END`. -/

/-- The graph's nodes, plus the terminal `END` marker (`done`). -/
inductive NodeId
  | orchestrator
  | refiner
  | text_to_cypher
  | web_search
  | answerer
  | done
deriving DecidableEq, Repr

/-- The node a route label selects in the conditional-edge map of
`create_graph`. -/
def targetOf : Route → NodeId
  | .refiner => .refiner
  | .text_to_cypher => .text_to_cypher
  | .web_search => .web_search
  | .answerer => .answerer

/-- An executor configuration: the node about to run, the shared state,
and how many orchestrator route decisions have been made so far. -/
structure ExecCfg where
  node : NodeId
  state : State
  decisions : Nat := 0
deriving Repr

/-- One transition of the compiled graph: run the current node and move
along its (conditional) out-edge. `done` is absorbing. -/
def step (cfg : Cfg) (o : Oracle) (c : ExecCfg) : ExecCfg :=
  match c.node with
  | .orchestrator =>
    let s := orchestratorRun cfg o c.state
    { node := targetOf (routeSelector s), state := s, decisions := c.decisions + 1 }
  | .refiner => { c with node := .orchestrator, state := refinerRun o c.state }
  | .text_to_cypher => { c with node := .answerer, state := text2cypherRun cfg o c.state }
  | .web_search => { c with node := .answerer, state := webSearchNodeRun cfg o c.state }
  | .answerer => { c with node := .done, state := answererRun cfg c.state }
  | .done => c

/-- Iterated execution (`n` transitions). -/
def exec (cfg : Cfg) (o : Oracle) (c : ExecCfg) : Nat → ExecCfg
  | 0 => c
  | n + 1 => exec cfg o (step cfg o c) n

/-- The fresh initial state built by `run_flow_async` and the entry
edge `START -> orchestrator`. -/
def initState (user_input : String) (mock : Bool) : State :=
  { query := user_input, refined_query := none, route_decision := none,
    cypher_result := none, web_result := none, final_answer := none,
    error := none, iteration_count := 0, mock := mock }

def initExec (user_input : String) (mock : Bool) : ExecCfg :=
  { node := .orchestrator, state := initState user_input mock, decisions := 0 }

/-- The all-ports-unavailable configuration: no LLM key, no Google key,
no Neo4j driver — every node runs its deterministic fallback. -/
def cfgNone : Cfg := {}

/-- The oracle for the all-ports-unavailable configuration (its fields
are never consulted on the deterministic paths). -/
def oracleNone : Oracle := {}

/-! ## Helper lemmas about the node functions -/

theorem exec_add (cfg : Cfg) (o : Oracle) (m n : Nat) :
    ∀ c : ExecCfg, exec cfg o c (m + n) = exec cfg o (exec cfg o c m) n := by
  induction m with
  | zero => intro c; rw [Nat.zero_add]; rfl
  | succ m ih =>
    intro c
    have h : m + 1 + n = (m + n) + 1 := by omega
    rw [h]
    show exec cfg o (step cfg o c) (m + n) = _
    rw [ih (step cfg o c)]
    rfl

theorem step_done (cfg : Cfg) (o : Oracle) (c : ExecCfg) (h : c.node = .done) :
    step cfg o c = c := by
  obtain ⟨n, s, d⟩ := c
  simp only at h
  subst h
  rfl

theorem exec_done (cfg : Cfg) (o : Oracle) (n : Nat) :
    ∀ c : ExecCfg, c.node = .done → exec cfg o c n = c := by
  induction n with
  | zero => intro c _; rfl
  | succ n ih =>
    intro c h
    show exec cfg o (step cfg o c) n = c
    rw [step_done cfg o c h]
    exact ih c h

/-- The loop guard of `decide_route`: at `iteration_count >= 2` the
decision is forced, without consulting the classifier. -/
theorem decide_route_guard (cfg : Cfg) (o : Oracle) (q : String)
    (rq : Option String) (n : Nat) (h : 2 ≤ n) :
    decide_route cfg o q rq n =
      (if seems_db_query (pyOrD rq q) then .text_to_cypher else .web_search) := by
  unfold decide_route
  rw [if_pos h]

/-- `OrchestratorNode.run` either records the raw `decide_route` label,
or (allowlist override) replaces a `text_to_cypher` label with
`web_search` and records the reason; the rest of the state is kept. -/
theorem orchestratorRun_cases (cfg : Cfg) (o : Oracle) (s : State) :
    orchestratorRun cfg o s =
      { s with route_decision := some (decide_route cfg o s.query s.refined_query s.iteration_count) } ∨
    (decide_route cfg o s.query s.refined_query s.iteration_count = .text_to_cypher ∧
      orchestratorRun cfg o s =
        { s with route_decision := some .web_search,
                 route_annotations_domain_check := some
                   { allowed_topics := parse_topics cfg.allowedTopics,
                     matched := false,
                     note := "Rerouted from text_to_cypher to web_search because query did not match allowed topics." } }) := by
  unfold orchestratorRun
  dsimp only
  by_cases h1 : decide_route cfg o s.query s.refined_query s.iteration_count = Route.text_to_cypher ∧
      pyStrip cfg.allowedTopics ≠ ""
  · rw [if_pos h1]
    by_cases h2 : ¬ ((parse_topics cfg.allowedTopics).any
        fun tok => isSubstr tok (lowerX (pyOrD s.refined_query s.query))) = true
    · rw [if_pos h2]
      right
      exact ⟨h1.1, rfl⟩
    · rw [if_neg h2]
      left
      rfl
  · rw [if_neg h1]
    left
    rfl

theorem orchestratorRun_proj (cfg : Cfg) (o : Oracle) (s : State) :
    (orchestratorRun cfg o s).query = s.query ∧
    (orchestratorRun cfg o s).mock = s.mock ∧
    (orchestratorRun cfg o s).iteration_count = s.iteration_count ∧
    (orchestratorRun cfg o s).refined_query = s.refined_query ∧
    (orchestratorRun cfg o s).cypher_result = s.cypher_result ∧
    (orchestratorRun cfg o s).web_result = s.web_result := by
  rcases orchestratorRun_cases cfg o s with h | ⟨_, h⟩ <;> rw [h] <;> exact ⟨rfl, rfl, rfl, rfl, rfl, rfl⟩

/-- `RefinerNode.run` in mock mode on a non-empty query. -/
theorem refinerRun_mock (o : Oracle) (s : State) (hq : ¬ s.query = "") (hm : s.mock = true) :
    refinerRun o s = { s with refined_query := some ("(REFINED) " ++ pyStrip s.query),
                              iteration_count := s.iteration_count + 1 } := by
  unfold refinerRun
  rw [if_neg hq, if_pos hm]

theorem refinerRun_proj (o : Oracle) (s : State) :
    (refinerRun o s).query = s.query ∧
    (refinerRun o s).mock = s.mock ∧
    (refinerRun o s).cypher_result = s.cypher_result ∧
    (refinerRun o s).web_result = s.web_result := by
  unfold refinerRun
  split_ifs <;> first
    | exact ⟨rfl, rfl, rfl, rfl⟩
    | (cases contentOf (o.rewrite s.query) <;> exact ⟨rfl, rfl, rfl, rfl⟩)

theorem text2cypherRun_proj (cfg : Cfg) (o : Oracle) (s : State) :
    (text2cypherRun cfg o s).web_result = s.web_result := by
  unfold text2cypherRun
  dsimp only
  split_ifs <;> first
    | rfl
    | (cases o.runCypher (clean_cypher (o.translate (pyOrD s.refined_query s.query))) <;> rfl)

theorem webSearchNodeRun_proj (cfg : Cfg) (o : Oracle) (s : State) :
    (webSearchNodeRun cfg o s).cypher_result = s.cypher_result := rfl

theorem answererRun_proj (cfg : Cfg) (s : State) :
    (answererRun cfg s).cypher_result = s.cypher_result ∧
    (answererRun cfg s).web_result = s.web_result := by
  unfold answererRun
  split_ifs
  · exact ⟨rfl, rfl⟩
  · cases s.cypher_result
    · cases s.web_result <;> exact ⟨rfl, rfl⟩
    · exact ⟨rfl, rfl⟩

theorem parse_topics_ne (env : String) (h : parse_topics env ≠ []) : pyStrip env ≠ "" := by
  intro he
  apply h
  unfold parse_topics
  rw [he]
  rfl

/-! ## Claim theorems -/

/-- C4: for every state with `iteration_count >= MAX_REFINEMENTS` (= 2)
and any input text, the router skips classification entirely and
returns `text_to_cypher` when the best-available query text
(`refined_query or query`) matches the domain-keyword heuristic, else
`web_search`; in particular it never returns `refiner`. -/
theorem c4_loop_guard (cfg : Cfg) (o : Oracle) (q : String) (rq : Option String)
    (n : Nat) (h : 2 ≤ n) :
    decide_route cfg o q rq n =
      (if seems_db_query (pyOrD rq q) then Route.text_to_cypher else Route.web_search) ∧
    decide_route cfg o q rq n ≠ Route.refiner := by
  have hg := decide_route_guard cfg o q rq n h
  refine ⟨hg, ?_⟩
  rw [hg]
  split <;> simp

/-- Witness for C4 at concrete inputs: with `iteration_count = 2` the
guard fires, choosing `text_to_cypher` for a db-flavored refined query
and never `refiner`. -/
theorem c4_loop_guard_witness :
    2 ≤ 2 ∧
    decide_route cfgNone oracleNone "cualquier texto" (some "stock de taladros") 2 =
      Route.text_to_cypher ∧
    decide_route cfgNone oracleNone "sin palabras clave" none 5 ≠ Route.refiner := by
  have h1 := (c4_loop_guard cfgNone oracleNone "cualquier texto" (some "stock de taladros") 2 (by omega)).1
  have h2 := (c4_loop_guard cfgNone oracleNone "sin palabras clave" none 5 (by omega)).2
  refine ⟨by omega, ?_, h2⟩
  rw [h1]
  decide

/-- C2 (counterexample): on the empty-query run the REFINE node sets
the error field, yet the node executed next is the orchestrator, not
the ANSWER node — the `refiner -> orchestrator` edge of `create_graph`
is unconditional. -/
theorem c2_counterexample :
    (exec cfgNone oracleNone (initExec "" true) 2).state.error = some "missing 'query' in state" ∧
    (exec cfgNone oracleNone (initExec "" true) 2).node = NodeId.orchestrator ∧
    (exec cfgNone oracleNone (initExec "" true) 2).node ≠ NodeId.answerer := by
  decide

/-- C2 (amended): after the REFINE node executes, the next node
executed is always the orchestrator, whether or not the refiner set
the error field. -/
theorem c2_refiner_edge_unconditional (cfg : Cfg) (o : Oracle) (s : State) (d : Nat) :
    (step cfg o { node := .refiner, state := s, decisions := d }).node = NodeId.orchestrator := rfl

/-- C5: the refine node's contract. On an empty query it sets the
error and leaves `iteration_count` unchanged; on a rewrite response
with no usable content it sets a descriptive error and leaves
`iteration_count` unchanged; on success (mock rewrite, or a rewrite
response with non-empty content) it sets `refined_query` and
increments `iteration_count` by exactly 1. -/
theorem c5_refiner_contract (o : Oracle) (s : State) :
    (s.query = "" →
      refinerRun o s = { s with error := some "missing 'query' in state" }) ∧
    (s.query ≠ "" → s.mock = false → contentOf (o.rewrite s.query) = none →
      refinerRun o s = { s with error := some "LLM returned empty content" }) ∧
    (s.query ≠ "" → s.mock = true →
      refinerRun o s = { s with refined_query := some ("(REFINED) " ++ pyStrip s.query),
                                iteration_count := s.iteration_count + 1 }) ∧
    (∀ content, s.query ≠ "" → s.mock = false → contentOf (o.rewrite s.query) = some content →
      refinerRun o s = { s with refined_query := some (pyStrip content),
                                iteration_count := s.iteration_count + 1 }) := by
  refine ⟨?_, ?_, ?_, ?_⟩
  · intro hq
    unfold refinerRun
    rw [if_pos hq]
  · intro hq hm hc
    unfold refinerRun
    rw [if_neg hq, if_neg (by simp [hm]), hc]
  · intro hq hm
    exact refinerRun_mock o s hq hm
  · intro content hq hm hc
    unfold refinerRun
    rw [if_neg hq, if_neg (by simp [hm]), hc]

/-- Witness for C5 at concrete inputs: the empty query errors without
touching the counter, and a mock refinement increments it from 0 to 1. -/
theorem c5_refiner_contract_witness :
    ("" : String) = "" ∧
    refinerRun oracleNone { query := "", mock := true } =
      { query := "", mock := true, error := some "missing 'query' in state" } ∧
    ("top productos" : String) ≠ "" ∧
    (refinerRun oracleNone { query := "top productos", mock := true }).iteration_count = 1 ∧
    (refinerRun oracleNone { query := "top productos", mock := true }).refined_query =
      some "(REFINED) top productos" := by
  refine ⟨rfl, ?_, by decide, ?_, ?_⟩
  · exact (c5_refiner_contract oracleNone { query := "", mock := true }).1 rfl
  · rw [(c5_refiner_contract oracleNone { query := "top productos", mock := true }).2.2.1 (by decide) rfl]
  · rw [(c5_refiner_contract oracleNone { query := "top productos", mock := true }).2.2.1 (by decide) rfl]
    decide

/-- C10: no dict returned by `WebSearchNode.run` carries the
`_filtered_by_domain` key, so the refusal branch of the answerer's
no-LLM web path that requires `_filtered_by_domain is False` can never
fire on a result produced by the web-search node. -/
theorem c10_no_filtered_flag (cfg : Cfg) (o : Oracle)
    (inpQuery inpQuestion : Option String) (n : Nat) :
    (webSearchRun cfg o inpQuery inpQuestion n).filteredByDomain = none ∧
    filtered_refusal cfg (webSearchRun cfg o inpQuery inpQuestion n) = false := by
  have h1 : (webSearchRun cfg o inpQuery inpQuestion n).filteredByDomain = none := by
    unfold webSearchRun
    dsimp only
    split_ifs
    all_goals first
      | rfl
      | (cases h : cfg.googleKey <;> rfl)
  refine ⟨h1, ?_⟩
  unfold filtered_refusal
  rw [h1]
  simp

def c9item : SearchItem :=
  { title := "Noticias internacionales", url := "https://nytimes.com/article",
    content := "Resumen de noticias internacionales." }

def c9cfg : Cfg := { webDomains := "example.com", googleKey := some "key", googleCx := some "cx" }

def c9oracle : Oracle := { googleSearch := fun _ _ => [c9item] }

/-- C9: with an allowed-domain set configured (`WEB_SEARCH_DOMAINS`)
and a search whose only hit lies outside it, `WebSearchNode.run`
returns the hit unfiltered and records only the plain `result_count`;
the full record shows that no filtered/original count pair and no
domain-filter marker exist anywhere in the result. -/
theorem c9_no_domain_count_recording :
    (webSearchRun c9cfg c9oracle (some "noticias de hoy") none 5).results = [c9item] ∧
    (webSearchRun c9cfg c9oracle (some "noticias de hoy") none 5).result_count = 1 ∧
    (webSearchRun c9cfg c9oracle (some "noticias de hoy") none 5).filteredByDomain = none ∧
    webSearchRun c9cfg c9oracle (some "noticias de hoy") none 5 =
      { question := some "noticias de hoy", results := [c9item], result_count := 1,
        success := true, error := none,
        user_friendly := some (format_user_friendly "noticias de hoy" [c9item]),
        filteredByDomain := none } := by
  refine ⟨rfl, rfl, rfl, rfl⟩

/-- C3: whenever the configured allowed-topics token set is non-empty
and no token occurs (case-insensitively) in the analyzed text
(`refined_query or query`), the recorded route decision is never
`text_to_cypher`; if the raw decision was `text_to_cypher`, it is
overridden to `web_search` and the reason is recorded in
`route_annotations` with `domain_check.matched = false`. -/
theorem c3_allowlist_override (cfg : Cfg) (o : Oracle) (s : State)
    (h1 : parse_topics cfg.allowedTopics ≠ [])
    (h2 : ((parse_topics cfg.allowedTopics).any
        fun tok => isSubstr tok (lowerX (pyOrD s.refined_query s.query))) = false) :
    (orchestratorRun cfg o s).route_decision ≠ some Route.text_to_cypher ∧
    (decide_route cfg o s.query s.refined_query s.iteration_count = Route.text_to_cypher →
      (orchestratorRun cfg o s).route_decision = some Route.web_search ∧
      (orchestratorRun cfg o s).route_annotations_domain_check =
        some { allowed_topics := parse_topics cfg.allowedTopics, matched := false,
               note := "Rerouted from text_to_cypher to web_search because query did not match allowed topics." }) := by
  have henv : pyStrip cfg.allowedTopics ≠ "" := parse_topics_ne cfg.allowedTopics h1
  unfold orchestratorRun
  dsimp only
  by_cases hr : decide_route cfg o s.query s.refined_query s.iteration_count = Route.text_to_cypher
  · rw [if_pos ⟨hr, henv⟩, if_pos (by simp [h2])]
    exact ⟨by simp, fun _ => ⟨rfl, rfl⟩⟩
  · rw [if_neg (by simp [hr])]
    refine ⟨?_, fun hcontra => absurd hcontra hr⟩
    simpa using hr

def c3cfg : Cfg := { allowedTopics := "producto" }

def c3state : State := { query := "precio de martillo", mock := true }

/-- Witness for C3: with `ALLOWED_TOPICS=producto` and the query
"precio de martillo" (a db-keyword query matching no allowed topic),
the heuristic chooses `text_to_cypher` and the gate reroutes to
`web_search`. -/
theorem c3_allowlist_override_witness :
    parse_topics c3cfg.allowedTopics ≠ [] ∧
    ((parse_topics c3cfg.allowedTopics).any
        fun tok => isSubstr tok (lowerX (pyOrD c3state.refined_query c3state.query))) = false ∧
    decide_route c3cfg oracleNone c3state.query c3state.refined_query c3state.iteration_count =
      Route.text_to_cypher ∧
    (orchestratorRun c3cfg oracleNone c3state).route_decision = some Route.web_search := by
  have h := c3_allowlist_override c3cfg oracleNone c3state (by decide) (by decide)
  exact ⟨by decide, by decide, by decide, (h.2 (by decide)).1⟩

/-- C6: the answer node populates `final_answer` in fixed priority
order — (1) a truthy error produces the apologetic error message;
(2) else a present structured result is formatted (reporting its
`error` sub-field instead of data when that sub-field is truthy);
(3) else a present web result is formatted; (4) else a conversational
reply is produced. Each earlier branch excludes the later ones. -/
theorem c6_answerer_priority (cfg : Cfg) (s : State) :
    (strTruthy s.error = true →
      answererRun cfg s =
        { s with final_answer := some ("Lo siento, ocurrió un error: " ++ s.error.getD "") }) ∧
    (∀ cr, strTruthy s.error = false → s.cypher_result = some cr →
      answererRun cfg s = { s with final_answer := some (format_cypher_response cr) } ∧
      (strTruthy cr.error = true →
        format_cypher_response cr =
          "No pude ejecutar la consulta en la base de datos: " ++ cr.error.getD "")) ∧
    (∀ wr, strTruthy s.error = false → s.cypher_result = none → s.web_result = some wr →
      answererRun cfg s = { s with final_answer := some (format_web_response cfg s.query wr) }) ∧
    (strTruthy s.error = false → s.cypher_result = none → s.web_result = none →
      answererRun cfg s =
        { s with final_answer := some (format_conversational_response cfg s.query) }) := by
  refine ⟨?_, ?_, ?_, ?_⟩
  · intro he
    unfold answererRun
    rw [if_pos he]
  · intro cr he hc
    constructor
    · unfold answererRun
      rw [if_neg (by simp [he]), hc]
    · intro hcr
      unfold format_cypher_response
      rw [if_pos hcr]
  · intro wr he hc hw
    unfold answererRun
    rw [if_neg (by simp [he]), hc, hw]
  · intro he hc hw
    unfold answererRun
    rw [if_neg (by simp [he]), hc, hw]

def c6errState : State := { query := "q", error := some "boom", mock := true }

def c6cypherErr : CypherResult := { error := some "timeout" }

def c6cypherState : State := { query := "q", cypher_result := some c6cypherErr, mock := true }

/-- Witness for C6: a state with a truthy error gets the apologetic
message, and a structured result carrying an error sub-field is
reported as a failure. -/
theorem c6_answerer_priority_witness :
    strTruthy (some "boom") = true ∧
    (answererRun cfgNone c6errState).final_answer =
      some "Lo siento, ocurrió un error: boom" ∧
    (answererRun cfgNone c6cypherState).final_answer =
      some "No pude ejecutar la consulta en la base de datos: timeout" := by
  refine ⟨by decide, ?_, ?_⟩
  · rw [(c6_answerer_priority cfgNone c6errState).1 (by decide)]
    decide
  · have h := (c6_answerer_priority cfgNone c6cypherState).2.1 c6cypherErr (by decide) rfl
    rw [h.1, h.2 (by decide)]
    decide

/-! ## Run invariant: terminal branches are mutually exclusive (C8) -/

/-- Invariant of the executor: before a terminal-branch node has run,
both result fields are empty; from the answer node on, at most one is
populated. -/
def execInv (c : ExecCfg) : Prop :=
  match c.node with
  | .orchestrator | .refiner | .text_to_cypher | .web_search =>
    c.state.cypher_result = none ∧ c.state.web_result = none
  | .answerer | .done =>
    c.state.cypher_result = none ∨ c.state.web_result = none

theorem step_preserves_inv (cfg : Cfg) (o : Oracle) (c : ExecCfg) (h : execInv c) :
    execInv (step cfg o c) := by
  obtain ⟨n, s, d⟩ := c
  cases n with
  | orchestrator =>
    obtain ⟨hc, hw⟩ := h
    have hp := orchestratorRun_proj cfg o s
    show execInv _
    unfold step
    dsimp only
    cases routeSelector (orchestratorRun cfg o s) <;>
      simp [execInv, targetOf, hp.2.2.2.2.1, hp.2.2.2.2.2]
    all_goals first
      | exact ⟨hc, hw⟩
      | exact Or.inl hc
  | refiner =>
    obtain ⟨hc, hw⟩ := h
    have hp := refinerRun_proj o s
    show execInv _
    simp [step, execInv, hp.2.2.1, hp.2.2.2]
    exact ⟨hc, hw⟩
  | text_to_cypher =>
    obtain ⟨_, hw⟩ := h
    have hp := text2cypherRun_proj cfg o s
    show execInv _
    simp [step, execInv, hp]
    exact Or.inr hw
  | web_search =>
    obtain ⟨hc, _⟩ := h
    have hp := webSearchNodeRun_proj cfg o s
    show execInv _
    simp [step, execInv, hp]
    exact Or.inl hc
  | answerer =>
    have hp := answererRun_proj cfg s
    show execInv _
    simp only [step, execInv]
    rcases h with h | h
    · left; rw [hp.1]; exact h
    · right; rw [hp.2]; exact h
  | done => exact h

theorem exec_preserves_inv (cfg : Cfg) (o : Oracle) (n : Nat) :
    ∀ c : ExecCfg, execInv c → execInv (exec cfg o c n) := by
  induction n with
  | zero => intro c h; exact h
  | succ n ih =>
    intro c h
    exact ih (step cfg o c) (step_preserves_inv cfg o c h)

/-- C8: starting from the fresh initial state, at every point of the
run (in particular at termination) at most one of `cypher_result` and
`web_result` is populated: the two terminal branches are mutually
exclusive. This holds for every configuration and every behavior of
the external ports. -/
theorem c8_results_mutually_exclusive (cfg : Cfg) (o : Oracle) (q : String) (m : Bool) (n : Nat) :
    (exec cfg o (initExec q m) n).state.cypher_result = none ∨
    (exec cfg o (initExec q m) n).state.web_result = none := by
  have h0 : execInv (initExec q m) := ⟨rfl, rfl⟩
  have h := exec_preserves_inv cfg o n (initExec q m) h0
  revert h
  unfold execInv
  cases hn : (exec cfg o (initExec q m) n).node
  all_goals intro h
  all_goals first
    | exact Or.inl h.1
    | exact h

/-! ## Termination of the run (C1) -/

theorem exec_succ (cfg : Cfg) (o : Oracle) (c : ExecCfg) (n : Nat) :
    exec cfg o c (n + 1) = exec cfg o (step cfg o c) n := rfl

theorem step_orch (cfg : Cfg) (o : Oracle) (s : State) (d : Nat) :
    step cfg o { node := .orchestrator, state := s, decisions := d } =
      { node := targetOf (routeSelector (orchestratorRun cfg o s)),
        state := orchestratorRun cfg o s, decisions := d + 1 } := rfl

/-- After an orchestrator step that chose a non-`refiner` route,
the run ends (via one terminal-branch node and the answer node) with
exactly one more route decision taken. -/
theorem exec_terminal3 (cfg : Cfg) (o : Oracle) (s : State) (d n : Nat)
    (hnr : routeSelector (orchestratorRun cfg o s) ≠ Route.refiner) :
    (exec cfg o { node := .orchestrator, state := s, decisions := d } (3 + n)).node = NodeId.done ∧
    (exec cfg o { node := .orchestrator, state := s, decisions := d } (3 + n)).decisions = d + 1 := by
  rw [exec_add]
  cases hv : routeSelector (orchestratorRun cfg o s) with
  | refiner => exact absurd hv hnr
  | text_to_cypher =>
    have e3 : exec cfg o { node := .orchestrator, state := s, decisions := d } 3 =
        { node := NodeId.done,
          state := answererRun cfg (text2cypherRun cfg o (orchestratorRun cfg o s)),
          decisions := d + 1 } := by
      show step cfg o (step cfg o (step cfg o
        { node := .orchestrator, state := s, decisions := d })) = _
      rw [step_orch, hv]
      rfl
    rw [e3, exec_done cfg o n _ rfl]
    exact ⟨rfl, rfl⟩
  | web_search =>
    have e3 : exec cfg o { node := .orchestrator, state := s, decisions := d } 3 =
        { node := NodeId.done,
          state := answererRun cfg (webSearchNodeRun cfg o (orchestratorRun cfg o s)),
          decisions := d + 1 } := by
      show step cfg o (step cfg o (step cfg o
        { node := .orchestrator, state := s, decisions := d })) = _
      rw [step_orch, hv]
      rfl
    rw [e3, exec_done cfg o n _ rfl]
    exact ⟨rfl, rfl⟩
  | answerer =>
    have e3 : exec cfg o { node := .orchestrator, state := s, decisions := d } 3 =
        { node := NodeId.done,
          state := answererRun cfg (orchestratorRun cfg o s),
          decisions := d + 1 } := by
      show step cfg o (step cfg o (step cfg o
        { node := .orchestrator, state := s, decisions := d })) = _
      rw [step_orch, hv]
      rfl
    rw [e3, exec_done cfg o n _ rfl]
    exact ⟨rfl, rfl⟩

/-- At the loop guard (`iteration_count >= 2`) the recorded route is
never `refiner`. -/
theorem routeSelector_guard (cfg : Cfg) (o : Oracle) (s : State)
    (h : 2 ≤ s.iteration_count) :
    routeSelector (orchestratorRun cfg o s) ≠ Route.refiner := by
  have hg := decide_route_guard cfg o s.query s.refined_query s.iteration_count h
  rcases orchestratorRun_cases cfg o s with hc | ⟨_, hc⟩
  · unfold routeSelector
    rw [hc]
    show decide_route cfg o s.query s.refined_query s.iteration_count ≠ Route.refiner
    rw [hg]
    split <;> simp
  · unfold routeSelector
    rw [hc]
    simp

/-- Bounded-refinement termination: from the orchestrator with `k`
remaining refinement budget (`2 ≤ iteration_count + k`), a non-empty
query and mock refinement, the run is done within `2k + 3` transitions
having taken at most `k + 1` further route decisions. -/
theorem orch_terminates (cfg : Cfg) (o : Oracle) :
    ∀ (k : Nat) (s : State) (d : Nat), s.query ≠ "" → s.mock = true →
      2 ≤ s.iteration_count + k →
      (exec cfg o { node := .orchestrator, state := s, decisions := d } (2 * k + 3)).node =
        NodeId.done ∧
      (exec cfg o { node := .orchestrator, state := s, decisions := d } (2 * k + 3)).decisions ≤
        d + k + 1 := by
  intro k
  induction k with
  | zero =>
    intro s d hq hm hit
    have hnr := routeSelector_guard cfg o s (by omega)
    have h := exec_terminal3 cfg o s d 0 hnr
    rw [show 2 * 0 + 3 = 3 + 0 by omega]
    exact ⟨h.1, by omega⟩
  | succ k ih =>
    intro s d hq hm hit
    cases hv : routeSelector (orchestratorRun cfg o s) with
    | refiner =>
      have e2 : exec cfg o { node := .orchestrator, state := s, decisions := d } 2 =
          { node := NodeId.orchestrator,
            state := refinerRun o (orchestratorRun cfg o s), decisions := d + 1 } := by
        show step cfg o (step cfg o
          { node := .orchestrator, state := s, decisions := d }) = _
        rw [step_orch, hv]
        rfl
      have hop := orchestratorRun_proj cfg o s
      have hq1 : ¬ (orchestratorRun cfg o s).query = "" := by rw [hop.1]; exact hq
      have hm1 : (orchestratorRun cfg o s).mock = true := by rw [hop.2.1]; exact hm
      have hrm := refinerRun_mock o (orchestratorRun cfg o s) hq1 hm1
      have hq2 : (refinerRun o (orchestratorRun cfg o s)).query ≠ "" := by
        rw [hrm]
        exact hq1
      have hm2 : (refinerRun o (orchestratorRun cfg o s)).mock = true := by
        rw [hrm]
        exact hm1
      have hit2 : 2 ≤ (refinerRun o (orchestratorRun cfg o s)).iteration_count + k := by
        rw [hrm]
        show 2 ≤ (orchestratorRun cfg o s).iteration_count + 1 + k
        rw [hop.2.2.1]
        omega
      have := ih (refinerRun o (orchestratorRun cfg o s)) (d + 1) hq2 hm2 hit2
      rw [show 2 * (k + 1) + 3 = 2 + (2 * k + 3) by omega, exec_add, e2]
      exact ⟨this.1, by omega⟩
    | text_to_cypher =>
      have h := exec_terminal3 cfg o s d (2 * k + 2) (by rw [hv]; simp)
      rw [show 2 * (k + 1) + 3 = 3 + (2 * k + 2) by omega]
      exact ⟨h.1, by omega⟩
    | web_search =>
      have h := exec_terminal3 cfg o s d (2 * k + 2) (by rw [hv]; simp)
      rw [show 2 * (k + 1) + 3 = 3 + (2 * k + 2) by omega]
      exact ⟨h.1, by omega⟩
    | answerer =>
      have h := exec_terminal3 cfg o s d (2 * k + 2) (by rw [hv]; simp)
      rw [show 2 * (k + 1) + 3 = 3 + (2 * k + 2) by omega]
      exact ⟨h.1, by omega⟩

/-- C1 (counterexample): from the fresh initial state with the empty
query, after 8 transitions the executor has taken 4 route decisions,
is back at the orchestrator, has not reached the ANSWER node's end and
has no final answer: the claimed bound of `MAX_REFINEMENTS + 1 = 3`
route decisions (and termination itself) fails for this run. The
refiner error path does not increment `iteration_count`, so the
orchestrator/refiner cycle repeats forever. -/
theorem c1_counterexample :
    (exec cfgNone oracleNone (initExec "" true) 8).decisions = 4 ∧
    (exec cfgNone oracleNone (initExec "" true) 8).node = NodeId.orchestrator ∧
    (exec cfgNone oracleNone (initExec "" true) 8).node ≠ NodeId.done ∧
    (exec cfgNone oracleNone (initExec "" true) 8).state.final_answer = none := by
  decide

/-- C1 (amended): for every run started from a fresh initial state
with a NON-EMPTY query in mock-refinement mode, and for every behavior
of the classifier port, execution reaches the end of the graph within
7 transitions and at most `MAX_REFINEMENTS + 1 = 3` route decisions. -/
theorem c1_bounded_termination (cfg : Cfg) (o : Oracle) (q : String) (h : q ≠ "") :
    (exec cfg o (initExec q true) 7).node = NodeId.done ∧
    (exec cfg o (initExec q true) 7).decisions ≤ 3 := by
  have hres := orch_terminates cfg o 2 (initState q true) 0 h rfl (by norm_num [initState])
  exact ⟨hres.1, hres.2⟩

/-- Witness for C1 (amended): the run on "hola" terminates within 7
transitions and at most 3 route decisions. -/
theorem c1_bounded_termination_witness :
    ("hola" : String) ≠ "" ∧
    (exec cfgNone oracleNone (initExec "hola" true) 7).node = NodeId.done ∧
    (exec cfgNone oracleNone (initExec "hola" true) 7).decisions ≤ 3 := by
  have h := c1_bounded_termination cfgNone oracleNone "hola" (by decide)
  exact ⟨by decide, h.1, h.2⟩

/-! ## The web-summary length bound (C7) -/

def c7content : String := "ba ba ba ba ba ba ba ba ba ba ba ba ba ba ba ba ba ba ba ca. da da da da da da da da da da da da da da da da da da da da fa."

def c7item : SearchItem := { title := "t", url := "https://example.com/a", content := c7content }

def c7web : WebResult :=
  { question := some "q", results := [c7item], result_count := 1,
    success := true, error := none, user_friendly := some "x", filteredByDomain := none }

def c7state : State := { query := "q", web_result := some c7web, mock := true }

def c7answer : String := c7content ++ " Fuente: example.com."

set_option maxRecDepth 10000 in
/-- C7 (counterexample): a successful search result whose content is a
41-word two-sentence text passes through the no-LLM web formatting
path unshortened (41 ≤ the 50-word fallback truncation) and gains a
source-citation sentence, so the recorded final answer has 43 words
and 3 sentences — more than the claimed 2-sentence / 40-word bound. -/
theorem c7_counterexample :
    (answererRun cfgNone c7state).final_answer = some c7answer ∧
    40 < wordCount c7answer ∧
    2 < sentenceCount c7answer := by
  refine ⟨by decide, by decide, by decide⟩

theorem splitGo_sound :
    ∀ (l acc : List Char), (∀ c ∈ acc, c.isWhitespace = false) →
      ∀ w ∈ splitGo acc l, w ≠ [] ∧ ∀ c ∈ w, c.isWhitespace = false := by
  intro l
  induction l with
  | nil =>
    intro acc hacc w hw
    unfold splitGo at hw
    by_cases ha : acc = []
    · simp [ha] at hw
    · rw [if_neg ha] at hw
      simp only [List.mem_singleton] at hw
      subst hw
      refine ⟨by simpa using ha, ?_⟩
      intro c hc
      exact hacc c (List.mem_reverse.mp hc)
  | cons c cs ih =>
    intro acc hacc w hw
    unfold splitGo at hw
    by_cases hc : c.isWhitespace
    · rw [if_pos hc] at hw
      by_cases ha : acc = []
      · rw [if_pos ha] at hw
        exact ih [] (by simp) w hw
      · rw [if_neg ha] at hw
        rcases List.mem_cons.mp hw with hw | hw
        · subst hw
          refine ⟨by simpa using ha, ?_⟩
          intro x hx
          exact hacc x (List.mem_reverse.mp hx)
        · exact ih [] (by simp) w hw
    · rw [if_neg hc] at hw
      refine ih (c :: acc) ?_ w hw
      intro x hx
      rcases List.mem_cons.mp hx with hx | hx
      · subst hx
        simpa using hc
      · exact hacc x hx

theorem pySplit_sound (s : String) (x : String) (hx : x ∈ pySplit s) :
    x.data ≠ [] ∧ ∀ c ∈ x.data, c.isWhitespace = false := by
  unfold pySplit at hx
  obtain ⟨y, hy, hxy⟩ := List.mem_map.mp hx
  subst hxy
  exact splitGo_sound s.data [] (by simp) y hy

/-- Flushing a whitespace-free word through the splitter. -/
theorem splitGo_word (w : List Char) (hw : ∀ c ∈ w, c.isWhitespace = false) :
    ∀ (acc l : List Char), splitGo acc (w ++ l) = splitGo (w.reverse ++ acc) l := by
  induction w with
  | nil => intro acc l; simp
  | cons c cs ih =>
    intro acc l
    have hc : c.isWhitespace = false := hw c (by simp)
    have hstep : splitGo acc (c :: (cs ++ l)) = splitGo (c :: acc) (cs ++ l) := by
      conv_lhs => unfold splitGo
      rw [if_neg (by simp [hc])]
    calc splitGo acc ((c :: cs) ++ l) = splitGo (c :: acc) (cs ++ l) := hstep
      _ = splitGo (cs.reverse ++ (c :: acc)) l :=
          ih (fun x hx => hw x (by simp [hx])) (c :: acc) l
      _ = splitGo ((c :: cs).reverse ++ acc) l := by simp

/-- Counting the words of a joined word list followed by a
whitespace-free suffix. -/
theorem splitGo_join_count (sfx : List Char) (hsfx1 : sfx ≠ [])
    (hsfx2 : ∀ c ∈ sfx, c.isWhitespace = false) :
    ∀ ws : List (List Char), ws ≠ [] →
      (∀ w ∈ ws, w ≠ [] ∧ ∀ c ∈ w, c.isWhitespace = false) →
      (splitGo [] (joinChars ws ++ sfx)).length = ws.length := by
  intro ws
  induction ws with
  | nil => intro h; exact absurd rfl h
  | cons w ws ih =>
    intro _ hall
    cases ws with
    | nil =>
      show (splitGo [] ((joinChars [w]) ++ sfx)).length = 1
      have hw := hall w (by simp)
      show (splitGo [] (w ++ sfx)).length = 1
      rw [splitGo_word w hw.2 [] sfx]
      rw [show sfx = sfx ++ [] by simp]
      rw [splitGo_word sfx hsfx2 (w.reverse ++ []) []]
      conv_lhs => unfold splitGo
      rw [if_neg (by simp [hsfx1])]
      rfl
    | cons w2 ws2 =>
      have hw := hall w (by simp)
      have hjc : joinChars (w :: w2 :: ws2) = w ++ ' ' :: joinChars (w2 :: ws2) := rfl
      rw [hjc]
      rw [show (w ++ ' ' :: joinChars (w2 :: ws2)) ++ sfx =
        w ++ (' ' :: (joinChars (w2 :: ws2) ++ sfx)) by simp]
      rw [splitGo_word w hw.2 [] (' ' :: (joinChars (w2 :: ws2) ++ sfx))]
      conv_lhs => unfold splitGo
      rw [if_pos (by decide)]
      rw [if_neg (by simp [hw.1])]
      have := ih (by simp) (fun x hx => hall x (by simp [hx]))
      simp only [List.length_cons]
      rw [this]
      simp

theorem str_data_append (a b : String) : (a ++ b).data = a.data ++ b.data := by
  cases a
  cases b
  rfl

/-- C7 (amended): the bound the answerer actually enforces is the
defensive truncation of `_shorten_text`: for ANY word limit `w ≥ 1`
(the source uses 60 on the LLM web path and 50 in the synthesized
fallback, not the 40 words requested from the LLM in the prompt), the
shortened text has at most `w` words. -/
theorem c7_shorten_text_word_bound (t : String) (ms w : Nat) (h : 1 ≤ w) :
    wordCount (shorten_text t ms w) ≤ w := by
  unfold shorten_text
  by_cases ht : t = ""
  · rw [if_pos ht]
    have h0 : wordCount "" = 0 := by decide
    omega
  · rw [if_neg ht]
    dsimp only
    by_cases hlen :
        (pySplit (pyStrip (joinSp ((split_sentences (pyStrip t)).take ms)))).length > w
    · rw [if_pos hlen]
      have htk : ((pySplit (pyStrip (joinSp ((split_sentences (pyStrip t)).take ms)))).take w).length = w := by
        rw [List.length_take]
        omega
      have hne : (((pySplit (pyStrip (joinSp ((split_sentences (pyStrip t)).take ms)))).take w).map
          String.data) ≠ [] := by
        intro hcon
        rw [List.map_eq_nil_iff] at hcon
        rw [hcon] at htk
        simp at htk
        omega
      have hall : ∀ x ∈ (((pySplit (pyStrip (joinSp ((split_sentences (pyStrip t)).take ms)))).take w).map
          String.data), x ≠ [] ∧ ∀ c ∈ x, c.isWhitespace = false := by
        intro x hx
        obtain ⟨y, hy, hxy⟩ := List.mem_map.mp hx
        subst hxy
        exact pySplit_sound _ y (List.take_subset w _ hy)
      have hcnt := splitGo_join_count ("...".data) (by decide) (by decide) _ hne hall
      unfold wordCount pySplit
      rw [List.length_map]
      rw [str_data_append]
      show (splitGo []
        (joinChars ((((pySplit (pyStrip (joinSp ((split_sentences (pyStrip t)).take ms)))).take w).map
          String.data)) ++ "...".data)).length ≤ w
      rw [hcnt, List.length_map, htk]
    · rw [if_neg hlen]
      unfold wordCount
      omega

/-- Witness for C7 (amended) at the limits the source uses: the
60-word LLM-path truncation and the 50-word fallback truncation. -/
theorem c7_shorten_text_word_bound_witness :
    (1 : Nat) ≤ 60 ∧ wordCount (shorten_text c7content 2 60) ≤ 60 ∧
    (1 : Nat) ≤ 50 ∧ wordCount (shorten_text c7content 2 50) ≤ 50 :=
  ⟨by omega, c7_shorten_text_word_bound c7content 2 60 (by omega),
   by omega, c7_shorten_text_word_bound c7content 2 50 (by omega)⟩
